import Mathlib

/-!
Verification of the ask_anywhere frontend (Tauri + React + TypeScript).

Shallow embedding of:
  * `src/services/aiClient.ts`  — `streamAiResponse` and its callback protocol;
  * `src/components/PopupWindow.tsx` — `handleSend`, `handleReplaceResponseInternal`,
    the resize effect and the global ESC handler;
  * `src/screenshot-selector.ts` — the `mouseup` confirm handler;
  * the configuration store (Rust backend; modelled from the spec, see below).

JavaScript strings are modelled as `List Char`; `undefined`/`null` option fields as
`Option`; promise rejection values as `JsError`.  Effects (clipboard writes, backend
command invocations, window hide/resize) are recorded explicitly in outcome records.
-/

/-- JavaScript strings, modelled as lists of characters. -/
abbrev Str := List Char

/-- Coerce a Lean string literal to the `Str` model. -/
def str (s : String) : Str := s.data

/-- The character class trimmed by JavaScript `String.prototype.trim`
(ASCII whitespace plus line terminators; the subset relevant here). -/
def isJsSpace (c : Char) : Bool :=
  c = ' ' || c = '\t' || c = '\n' || c = '\r' || c = '\x0b' || c = '\x0c'

/-- JavaScript `s.trim()`: strip leading and trailing whitespace. -/
def jsTrim (s : Str) : Str :=
  ((s.dropWhile isJsSpace).reverse.dropWhile isJsSpace).reverse

/-- JavaScript `a || b` on strings: `b` when `a` is empty (falsy), else `a`. -/
def jsOrStr (a b : Str) : Str := if a = [] then b else a

/-- JavaScript `s.toLowerCase()` restricted to ASCII (the only case used here). -/
def jsLower (s : Str) : Str := s.map Char.toLower

/-! ## Data model (`src/types.ts`) -/

/-- `ModelConfig` of `src/types.ts`. -/
structure ModelConfig where
  name : Str
  base_url : Str
  api_key : Str
  model_name : Str
  supports_vision : Option Bool
deriving DecidableEq, Repr

/-- The post-action of a template: `"none" | "copy" | "replace"`. -/
inductive TemplateAction where
  | noAction
  | copy
  | replace
deriving DecidableEq, Repr

/-- `QuestionTemplate` of `src/types.ts` (`hotkey` and `background_mode` optional). -/
structure QuestionTemplate where
  id : Str
  name : Str
  prompt : Str
  action : TemplateAction
  hotkey : Option Str
  background_mode : Option Bool
deriving DecidableEq, Repr

/-- `HotkeyConfig` of `src/types.ts`. -/
structure HotkeyConfig where
  popup_hotkey : Str
  screenshot_hotkey : Option Str
deriving DecidableEq, Repr

/-- `AppConfig` of `src/types.ts`. -/
structure AppConfig where
  models : List ModelConfig
  templates : List QuestionTemplate
  hotkeys : HotkeyConfig
  selected_model_index : Nat
  popup_width : Nat
  max_popup_height : Nat
deriving DecidableEq, Repr

/-! ## AI client (`src/services/aiClient.ts`) -/

/-- A JavaScript value thrown / rejected with: either an `Error` object carrying a
`message`, or any other value. -/
inductive JsError where
  | errorObj (message : Str)
  | nonError
deriving DecidableEq, Repr

/-- `error instanceof Error ? error.message : "Unknown error occurred"`. -/
def jsErrorMessage : JsError → Str
  | JsError.errorObj m => m
  | JsError.nonError => str "Unknown error occurred"

/-- One callback invocation performed by `streamAiResponse`. -/
inductive StreamEvent where
  | chunkEv (s : Str)
  | doneEv
  | errorEv (msg : Str)
deriving DecidableEq, Repr

/-- `channel.onmessage`: forward a delivered chunk to `onChunk` only when it is
truthy (non-empty). -/
def channelOnMessage (chunk : Str) : List StreamEvent :=
  if chunk = [] then [] else [StreamEvent.chunkEv chunk]

/-- The terminal callback: `onDone()` when the `invoke` promise resolves,
`onError(message)` when it rejects. -/
def terminalEvent : Except JsError Unit → StreamEvent
  | Except.ok _ => StreamEvent.doneEv
  | Except.error e => StreamEvent.errorEv (jsErrorMessage e)

/-- `streamAiResponse` of `src/services/aiClient.ts`, as the ordered trace of
callback invocations it performs, given the chunk messages delivered on the
stream channel during the call and the settlement of the `invoke` promise. -/
def streamAiResponse (deliveries : List Str) (result : Except JsError Unit) :
    List StreamEvent :=
  deliveries.flatMap channelOnMessage ++ [terminalEvent result]

/-- Is an event a `chunkEv`? -/
def isChunkEv : StreamEvent → Bool
  | StreamEvent.chunkEv _ => true
  | _ => false

/-- Is an event one of the two terminal callbacks (`onDone` / `onError`)? -/
def isTerminalEv : StreamEvent → Bool
  | StreamEvent.chunkEv _ => false
  | _ => true

/-- Is an event the `onError` callback? -/
def isErrorEv : StreamEvent → Bool
  | StreamEvent.errorEv _ => true
  | _ => false

lemma flatMap_channelOnMessage (ds : List Str) :
    ds.flatMap channelOnMessage
      = (ds.filter (fun c => !(c = [] : Bool))).map StreamEvent.chunkEv := by
  induction ds with
  | nil => rfl
  | cons c ds ih =>
    by_cases hc : c = []
    · simp [List.flatMap_cons, channelOnMessage, hc, ih, List.filter_cons]
    · simp [List.flatMap_cons, channelOnMessage, hc, ih, List.filter_cons]

/-- C1.  The chunk callbacks are exactly the non-empty deliveries, in order, each
exactly once, followed by the single terminal callback. -/
theorem aiClient_chunk_order (ds : List Str) (res : Except JsError Unit) :
    streamAiResponse ds res
      = (ds.filter (fun c => !(c = [] : Bool))).map StreamEvent.chunkEv
          ++ [terminalEvent res] := by
  simp [streamAiResponse, flatMap_channelOnMessage]

/-- C2 helper: the number of terminal callbacks in the trace. -/
lemma count_terminal (ds : List Str) (res : Except JsError Unit) :
    ((streamAiResponse ds res).countP isTerminalEv) = 1 := by
  rw [aiClient_chunk_order]
  rw [List.countP_append]
  have h1 : ((ds.filter (fun c => !(c = [] : Bool))).map StreamEvent.chunkEv).countP
      isTerminalEv = 0 := by
    rw [List.countP_eq_zero]
    intro a ha
    rcases List.mem_map.mp ha with ⟨c, _, rfl⟩
    simp [isTerminalEv]
  rw [h1]
  cases res <;> simp [terminalEvent, isTerminalEv, List.countP_cons]

/-! ## Popup window (`src/components/PopupWindow.tsx`) -/

/-- Role of a message in the popup's UI history (`interface Message`). -/
inductive ChatRole where
  | userR
  | assistantR
deriving DecidableEq, Repr

/-- A message of the popup's UI history, displayed newest first. -/
structure ChatMsg where
  role : ChatRole
  content : Str
deriving DecidableEq, Repr

/-- Role of a wire message (`Message` of `src/services/aiClient.ts`). -/
inductive AIRole where
  | user
  | assistant
  | system
deriving DecidableEq, Repr

/-- `MessageContentPart` of `src/services/aiClient.ts`. -/
inductive MessageContentPart where
  | textPart (text : Str)
  | imagePart (url : Str)
deriving DecidableEq, Repr

/-- `MessageContent`: `string | MessageContentPart[]`. -/
inductive MessageContent where
  | ofString (s : Str)
  | ofParts (parts : List MessageContentPart)
deriving DecidableEq, Repr

/-- `Message` of `src/services/aiClient.ts`. -/
structure AIMessage where
  role : AIRole
  content : MessageContent
deriving DecidableEq, Repr

/-- A UI history message used directly as a wire message
(`conversationMessages.push(...messages.slice().reverse())`). -/
def uiToAI (m : ChatMsg) : AIMessage :=
  AIMessage.mk (match m.role with
    | ChatRole.userR => AIRole.user
    | ChatRole.assistantR => AIRole.assistant) (MessageContent.ofString m.content)

/-- The popup component state read by `handleSend` and captured by its callbacks'
closures at the render where the send begins. -/
structure PopupState where
  config : AppConfig
  customPrompt : Str
  messages : List ChatMsg
  currentResponse : Str
deriving DecidableEq, Repr

/-- The optional arguments of `handleSend(promptOverride?, templateAction?,
capturedTextOverride?)`. -/
structure SendInput where
  promptOverride : Option Str
  templateAction : Option TemplateAction
  capturedTextOverride : Option Str
deriving DecidableEq, Repr

/-- Result of the prompt-determination phase of `handleSend`: either an error was
set and the function returned, or a prompt and a post-action were selected. -/
inductive RouteResult where
  | invalid (msg : Str)
  | proceed (finalPrompt : Str) (action : TemplateAction)
deriving DecidableEq, Repr

/-- The error message shown when a `/command` matches no template. -/
def templateNotFound (commandName : Str) : Str :=
  str "Template \"" ++ commandName ++ str "\" not found."

/-- Prompt determination of `handleSend` (PopupWindow.tsx lines 318–353):
an explicit `promptOverride` wins; otherwise a trimmed input starting with `/`
is resolved against the template list by the text up to the first space,
case-insensitively; otherwise a non-empty trimmed input is sent verbatim. -/
def routeSend (cfg : AppConfig) (input : Str) (promptOverride : Option Str)
    (templateAction : Option TemplateAction) : RouteResult :=
  match promptOverride with
  | some p => RouteResult.proceed p (templateAction.getD TemplateAction.noAction)
  | none =>
    let trimmed := jsTrim input
    if trimmed.take 1 = ['/'] then
      let commandName := (trimmed.drop 1).takeWhile (fun c => !(c = ' ' : Bool))
      match cfg.templates.find? (fun t => jsLower t.name == jsLower commandName) with
      | some t =>
        let additionalText := jsTrim (trimmed.drop (commandName.length + 1))
        let finalPrompt :=
          if additionalText = [] then t.prompt
          else t.prompt ++ str "\n\n" ++ additionalText
        RouteResult.proceed finalPrompt t.action
      | none => RouteResult.invalid (templateNotFound commandName)
    else if trimmed = [] then
      RouteResult.invalid (str "Please enter a prompt or use a template command.")
    else
      RouteResult.proceed trimmed TemplateAction.noAction

/-- `conversationMessages` built by `handleSend`: a truthy `capturedTextOverride`
becomes the sole history message, otherwise the UI history is replayed oldest
first; the freshly determined prompt is appended as the final user message. -/
def buildConversation (msgs : List ChatMsg) (capturedTextOverride : Option Str)
    (finalPrompt : Str) : List AIMessage :=
  (match capturedTextOverride with
   | some c =>
     if c = [] then msgs.reverse.map uiToAI
     else [AIMessage.mk AIRole.user (MessageContent.ofString c)]
   | none => msgs.reverse.map uiToAI)
  ++ [AIMessage.mk AIRole.user (MessageContent.ofString finalPrompt)]

/-- `messages.find((m) => m.role === "assistant")?.content`, with the `undefined`
of a missing match modelled as the (equally falsy) empty string. -/
def findAssistantContent (ms : List ChatMsg) : Str :=
  match ms.find? (fun m => m.role == ChatRole.assistantR) with
  | some m => m.content
  | none => []

/-- `handleReplaceResponseInternal(text)` (PopupWindow.tsx lines 564–580):
fall back from `text` to the closure's `currentResponse` and then to the latest
assistant message; when the result is truthy, invoke `replace_text_in_source`
with it and hide the popup, else do nothing.  Returns the calls made to
`replace_text_in_source` and whether `hide_popup_window` was invoked. -/
def handleReplaceResponseInternal (text closureCurrentResponse : Str)
    (closureMessages : List ChatMsg) : List Str × Bool :=
  let textToReplace :=
    jsOrStr text (jsOrStr closureCurrentResponse (findAssistantContent closureMessages))
  if textToReplace = [] then ([], false) else ([textToReplace], true)

/-- The mutable state threaded through the streaming callbacks of `handleSend`:
the local `accumulatedResponse` plus the React state and the effects performed. -/
structure SendState where
  accumulated : Str
  messages : List ChatMsg
  currentResponse : Str
  customPrompt : Str
  isStreaming : Bool
  errorMsg : Option Str
  clipboardWrites : List Str
  replaceCalls : List Str
  popupHidden : Bool
deriving DecidableEq, Repr

/-- The `onChunk` / `onError` / `onDone` callbacks of `handleSend` (PopupWindow.tsx
lines 399–428), applied to one stream event.  `closureCurrentResponse` and
`closureMessages` are the component state captured when the callbacks were
created, read by the replace fallback. -/
def applyStreamEvent (action : TemplateAction) (closureCurrentResponse : Str)
    (closureMessages : List ChatMsg) (st : SendState) : StreamEvent → SendState
  | StreamEvent.chunkEv c =>
    { st with accumulated := st.accumulated ++ c, currentResponse := st.accumulated ++ c }
  | StreamEvent.errorEv e =>
    { st with errorMsg := some e, isStreaming := false, currentResponse := [] }
  | StreamEvent.doneEv =>
    let st1 := { st with
      messages := ChatMsg.mk ChatRole.assistantR st.accumulated :: st.messages,
      currentResponse := [], customPrompt := [], isStreaming := false }
    match action with
    | TemplateAction.copy =>
      { st1 with clipboardWrites := st1.clipboardWrites ++ [st.accumulated] }
    | TemplateAction.replace =>
      let r := handleReplaceResponseInternal st.accumulated closureCurrentResponse
        closureMessages
      { st1 with replaceCalls := st1.replaceCalls ++ r.1,
                 popupHidden := st1.popupHidden || r.2 }
    | TemplateAction.noAction => st1

/-- The observable outcome of one `handleSend` call. -/
structure SendOutcome where
  crashed : Bool
  started : Bool
  sentConversation : List AIMessage
  messages : List ChatMsg
  currentResponse : Str
  customPrompt : Str
  isStreaming : Bool
  errorMsg : Option Str
  clipboardWrites : List Str
  replaceCalls : List Str
  popupHidden : Bool
deriving DecidableEq, Repr

/-- Outcome of a `handleSend` call that returned before starting a request. -/
def unchangedOutcome (ps : PopupState) (err : Option Str) (crash : Bool) : SendOutcome :=
  SendOutcome.mk crash false [] ps.messages ps.currentResponse ps.customPrompt false err
    [] [] false

/-- `handleSend` of PopupWindow.tsx (lines 305–437), given the chunk messages the
stream channel delivers and the settlement of the backing `invoke` promise. -/
def handleSend (ps : PopupState) (inp : SendInput) (deliveries : List Str)
    (res : Except JsError Unit) : SendOutcome :=
  match ps.config.models[ps.config.selected_model_index]? with
  | none => unchangedOutcome ps none true
  | some model =>
    if model.api_key = [] then
      unchangedOutcome ps (some (str "Please configure an API key in settings first."))
        false
    else
      match routeSend ps.config ps.customPrompt inp.promptOverride inp.templateAction with
      | RouteResult.invalid m => unchangedOutcome ps (some m) false
      | RouteResult.proceed finalPrompt action =>
        let conversation := buildConversation ps.messages inp.capturedTextOverride finalPrompt
        let st0 : SendState := SendState.mk [] (ChatMsg.mk ChatRole.userR finalPrompt :: ps.messages)
          [] ps.customPrompt true none [] [] false
        let stF := (streamAiResponse deliveries res).foldl
          (applyStreamEvent action ps.currentResponse ps.messages) st0
        SendOutcome.mk false true conversation stF.messages stF.currentResponse
          stF.customPrompt stF.isStreaming stF.errorMsg stF.clipboardWrites
          stF.replaceCalls stF.popupHidden

/-! ### Streaming lemmas for `handleSend` -/

lemma foldl_chunk_events (action : TemplateAction) (ccr : Str) (cms : List ChatMsg)
    (ds : List Str) (a : Str) (ms : List ChatMsg) (cr0 cp : Str) (istr : Bool)
    (em : Option Str) (cw rc : List Str) (ph : Bool) :
    ∃ cr, (ds.flatMap channelOnMessage).foldl (applyStreamEvent action ccr cms)
        (SendState.mk a ms cr0 cp istr em cw rc ph)
      = SendState.mk (a ++ ds.flatten) ms cr cp istr em cw rc ph := by
  induction ds generalizing a cr0 with
  | nil => exact ⟨cr0, by simp⟩
  | cons c ds ih =>
    by_cases hc : c = []
    · subst hc
      simpa [channelOnMessage] using ih a cr0
    · obtain ⟨cr, h⟩ := ih (a ++ c) (a ++ c)
      refine ⟨cr, ?_⟩
      simp only [List.flatMap_cons, channelOnMessage, if_neg hc, List.singleton_append,
        List.foldl_cons]
      rw [show applyStreamEvent action ccr cms (SendState.mk a ms cr0 cp istr em cw rc ph)
          (StreamEvent.chunkEv c)
        = SendState.mk (a ++ c) ms (a ++ c) cp istr em cw rc ph from rfl]
      rw [h, List.flatten_cons, List.append_assoc]

/-- C2.  The trace contains exactly one terminal callback: `onDone`, last, when the
stream command resolves (and then `onError` never fires); `onError` with the
single error-message string, last, when it rejects (and then `onDone` never
fires). -/
theorem aiClient_terminal_exclusive (ds : List Str) (res : Except JsError Unit) :
    (streamAiResponse ds res).countP isTerminalEv = 1 ∧
    (res = Except.ok () →
      (streamAiResponse ds res).getLast? = some StreamEvent.doneEv ∧
      (streamAiResponse ds res).countP isErrorEv = 0) ∧
    (∀ e, res = Except.error e →
      (streamAiResponse ds res).getLast?
          = some (StreamEvent.errorEv (jsErrorMessage e)) ∧
      StreamEvent.doneEv ∉ streamAiResponse ds res) := by
  have hchunk : (ds.flatMap channelOnMessage).countP isErrorEv = 0 := by
    rw [flatMap_channelOnMessage, List.countP_eq_zero]
    intro a ha
    rcases List.mem_map.mp ha with ⟨c, _, rfl⟩
    simp [isErrorEv]
  refine ⟨count_terminal ds res, ?_, ?_⟩
  · rintro rfl
    refine ⟨?_, ?_⟩
    · simp [streamAiResponse, terminalEvent, List.getLast?_concat]
    · simp [streamAiResponse, terminalEvent, List.countP_append, hchunk,
        List.countP_cons, isErrorEv]
  · rintro e rfl
    refine ⟨?_, ?_⟩
    · simp [streamAiResponse, terminalEvent, List.getLast?_concat]
    · rw [streamAiResponse, flatMap_channelOnMessage]
      simp [terminalEvent, List.mem_append, List.mem_map]

/-- Witness for C2 at concrete inputs: a two-chunk successful stream ends with
`onDone`; a rejected stream ends with `onError`. -/
theorem aiClient_terminal_exclusive_witness :
    (streamAiResponse [str "Hel", str "lo"] (Except.ok ())).getLast?
        = some StreamEvent.doneEv ∧
    (streamAiResponse [] (Except.error JsError.nonError)).getLast?
        = some (StreamEvent.errorEv (jsErrorMessage JsError.nonError)) :=
  ⟨((aiClient_terminal_exclusive [str "Hel", str "lo"] (Except.ok ())).2.1 rfl).1,
   (((aiClient_terminal_exclusive [] (Except.error JsError.nonError)).2.2
      JsError.nonError) rfl).1⟩

/-- C4.  A send that streams to completion with post-action `copy` writes exactly
the accumulated response text to the clipboard and does not hide the popup. -/
theorem popup_copy_postaction (ps : PopupState) (inp : SendInput) (ds : List Str)
    (model : ModelConfig) (p : Str)
    (hm : ps.config.models[ps.config.selected_model_index]? = some model)
    (hk : ¬ model.api_key = [])
    (hr : routeSend ps.config ps.customPrompt inp.promptOverride inp.templateAction
        = RouteResult.proceed p TemplateAction.copy) :
    (handleSend ps inp ds (Except.ok ())).clipboardWrites = [ds.flatten] ∧
    (handleSend ps inp ds (Except.ok ())).popupHidden = false ∧
    (handleSend ps inp ds (Except.ok ())).started = true := by
  obtain ⟨cr, hfold⟩ := foldl_chunk_events TemplateAction.copy ps.currentResponse
    ps.messages ds [] (ChatMsg.mk ChatRole.userR p :: ps.messages) [] ps.customPrompt
    true none [] [] false
  simp only [handleSend, hm, if_neg hk, hr, streamAiResponse, terminalEvent,
    List.foldl_append, hfold, List.foldl_cons, List.foldl_nil, List.nil_append]
  simp [applyStreamEvent]

/-- Witness for C4: a concrete copy-send with chunks "Hel", "lo" writes "Hello". -/
theorem popup_copy_postaction_witness :
    (handleSend
        (PopupState.mk
          (AppConfig.mk
            [ModelConfig.mk (str "OpenAI") (str "https://api.openai.com/v1")
              (str "sk-test") (str "gpt-4o") (some false)]
            [] (HotkeyConfig.mk (str "Alt+S") none) 0 500 600)
          [] [] [])
        (SendInput.mk (some (str "Summarize")) (some TemplateAction.copy) none)
        [str "Hel", str "lo"] (Except.ok ())).clipboardWrites = [str "Hello"] := by
  have h := popup_copy_postaction
    (PopupState.mk
      (AppConfig.mk
        [ModelConfig.mk (str "OpenAI") (str "https://api.openai.com/v1")
          (str "sk-test") (str "gpt-4o") (some false)]
        [] (HotkeyConfig.mk (str "Alt+S") none) 0 500 600)
      [] [] [])
    (SendInput.mk (some (str "Summarize")) (some TemplateAction.copy) none)
    [str "Hel", str "lo"]
    (ModelConfig.mk (str "OpenAI") (str "https://api.openai.com/v1")
      (str "sk-test") (str "gpt-4o") (some false))
    (str "Summarize") (by decide) (by decide) (by decide)
  rw [h.1]
  decide

/-- A concrete model entry used in counterexample configurations. -/
def cexModel : ModelConfig :=
  ModelConfig.mk (str "OpenAI") (str "https://api.openai.com/v1") (str "sk-test")
    (str "gpt-4o") (some false)

/-- Popup state for the C3 counterexample: fresh popup, valid model, no history. -/
def cexStateC3 : PopupState :=
  PopupState.mk
    (AppConfig.mk [cexModel] [] (HotkeyConfig.mk (str "Alt+S") none) 0 500 600)
    [] [] []

/-- Send input for the C3 counterexample: template send with post-action replace. -/
def cexInputC3 : SendInput :=
  SendInput.mk (some (str "Summarize")) (some TemplateAction.replace) none

/-- Counterexample to C3: a send with post-action `replace` that completes
successfully but whose stream delivered no non-empty chunk (accumulated response
is the empty string).  The claim demands `replace_text_in_source` be invoked with
the accumulated text and the popup hidden; the code's empty-text fallback makes
no replace call and leaves the popup visible. -/
theorem popup_replace_counterexample :
    routeSend cexStateC3.config cexStateC3.customPrompt cexInputC3.promptOverride
        cexInputC3.templateAction
      = RouteResult.proceed (str "Summarize") TemplateAction.replace ∧
    (handleSend cexStateC3 cexInputC3 [] (Except.ok ())).started = true ∧
    (handleSend cexStateC3 cexInputC3 [] (Except.ok ())).errorMsg = none ∧
    (handleSend cexStateC3 cexInputC3 [] (Except.ok ())).replaceCalls = [] ∧
    (handleSend cexStateC3 cexInputC3 [] (Except.ok ())).popupHidden = false := by
  decide

/-- C3 as amended.  A send that streams to completion with post-action `replace`
and a non-empty accumulated response invokes `replace_text_in_source` with
exactly the accumulated text and then hides the popup.  (With an empty
accumulated response the code falls back and, from a fresh popup, does
neither — see the counterexample.) -/
theorem popup_replace_applied (ps : PopupState) (inp : SendInput) (ds : List Str)
    (model : ModelConfig) (p : Str)
    (hm : ps.config.models[ps.config.selected_model_index]? = some model)
    (hk : ¬ model.api_key = [])
    (hr : routeSend ps.config ps.customPrompt inp.promptOverride inp.templateAction
        = RouteResult.proceed p TemplateAction.replace)
    (hne : ¬ ds.flatten = []) :
    (handleSend ps inp ds (Except.ok ())).replaceCalls = [ds.flatten] ∧
    (handleSend ps inp ds (Except.ok ())).popupHidden = true := by
  obtain ⟨cr, hfold⟩ := foldl_chunk_events TemplateAction.replace ps.currentResponse
    ps.messages ds [] (ChatMsg.mk ChatRole.userR p :: ps.messages) [] ps.customPrompt
    true none [] [] false
  simp only [handleSend, hm, if_neg hk, hr, streamAiResponse, terminalEvent,
    List.foldl_append, hfold, List.foldl_cons, List.foldl_nil, List.nil_append]
  simp [applyStreamEvent, handleReplaceResponseInternal, jsOrStr, hne]

/-- Witness for the amended C3: chunks "FO", "O" yield a replace call with "FOO"
and a hidden popup. -/
theorem popup_replace_applied_witness :
    (handleSend cexStateC3
        (SendInput.mk (some (str "Summarize")) (some TemplateAction.replace) none)
        [str "FO", str "O"] (Except.ok ())).replaceCalls = [str "FOO"] ∧
    (handleSend cexStateC3
        (SendInput.mk (some (str "Summarize")) (some TemplateAction.replace) none)
        [str "FO", str "O"] (Except.ok ())).popupHidden = true := by
  have h := popup_replace_applied cexStateC3
    (SendInput.mk (some (str "Summarize")) (some TemplateAction.replace) none)
    [str "FO", str "O"] cexModel (str "Summarize")
    (by decide) (by decide) (by decide) (by decide)
  refine ⟨?_, h.2⟩
  rw [h.1]
  decide

/-- C5.  A send whose stream command rejects applies no post-action: no clipboard
write, no replace call, no hide; only the error message is set and the streaming
state is cleared. -/
theorem popup_error_no_postaction (ps : PopupState) (inp : SendInput) (ds : List Str)
    (model : ModelConfig) (p : Str) (act : TemplateAction) (e : JsError)
    (hm : ps.config.models[ps.config.selected_model_index]? = some model)
    (hk : ¬ model.api_key = [])
    (hr : routeSend ps.config ps.customPrompt inp.promptOverride inp.templateAction
        = RouteResult.proceed p act) :
    (handleSend ps inp ds (Except.error e)).clipboardWrites = [] ∧
    (handleSend ps inp ds (Except.error e)).replaceCalls = [] ∧
    (handleSend ps inp ds (Except.error e)).popupHidden = false ∧
    (handleSend ps inp ds (Except.error e)).errorMsg = some (jsErrorMessage e) ∧
    (handleSend ps inp ds (Except.error e)).isStreaming = false ∧
    (handleSend ps inp ds (Except.error e)).currentResponse = [] := by
  obtain ⟨cr, hfold⟩ := foldl_chunk_events act ps.currentResponse
    ps.messages ds [] (ChatMsg.mk ChatRole.userR p :: ps.messages) [] ps.customPrompt
    true none [] [] false
  simp only [handleSend, hm, if_neg hk, hr, streamAiResponse, terminalEvent,
    List.foldl_append, hfold, List.foldl_cons, List.foldl_nil, List.nil_append]
  simp [applyStreamEvent]

/-- Witness for C5: a concrete rejected send sets only the error message. -/
theorem popup_error_no_postaction_witness :
    (handleSend cexStateC3
        (SendInput.mk (some (str "Summarize")) (some TemplateAction.copy) none)
        [str "par"] (Except.error (JsError.errorObj (str "HTTP 500")))).errorMsg
      = some (str "HTTP 500") ∧
    (handleSend cexStateC3
        (SendInput.mk (some (str "Summarize")) (some TemplateAction.copy) none)
        [str "par"] (Except.error (JsError.errorObj (str "HTTP 500")))).clipboardWrites
      = [] := by
  have h := popup_error_no_postaction cexStateC3
    (SendInput.mk (some (str "Summarize")) (some TemplateAction.copy) none)
    [str "par"] cexModel (str "Summarize") TemplateAction.copy
    (JsError.errorObj (str "HTTP 500"))
    (by decide) (by decide) (by decide)
  exact ⟨h.2.2.2.1, h.1⟩

/-! ### Window resize effect (PopupWindow.tsx lines 106–109 and 209–225) -/

/-- `const COMPACT_HEIGHT = 200`. -/
def COMPACT_HEIGHT : Nat := 200

/-- `const EXPANDED_HEIGHT = 600`. -/
def EXPANDED_HEIGHT : Nat := 600

/-- `const POPUP_WIDTH = config?.popup_width || 500`. -/
def popupWidthOf (config : Option AppConfig) : Nat :=
  match config with
  | some c => if c.popup_width = 0 then 500 else c.popup_width
  | none => 500

/-- The `handleResize` effect: the `(width, height)` passed to
`resize_popup_window`, from the message count and the streaming response. -/
def handleResize (config : Option AppConfig) (messagesLen : Nat)
    (currentResponse : Str) : Nat × Nat :=
  if 0 < messagesLen ∨ ¬ currentResponse = [] then
    (popupWidthOf config, EXPANDED_HEIGHT)
  else
    (popupWidthOf config, COMPACT_HEIGHT)

/-- Config for the C6 counterexample: `max_popup_height` is 800, not the
default 600. -/
def cexConfigC6 : AppConfig :=
  AppConfig.mk [cexModel] [] (HotkeyConfig.mk (str "Alt+S") none) 0 500 800

/-- C6, evaluated at the failing input: with a non-empty history and
`max_popup_height = 800` the popup is resized to the hard-coded height 600,
although the settings page documents the field as the maximum popup height when
expanded — the component never reads `config.max_popup_height`. -/
theorem popup_resize_counterexample :
    cexConfigC6.max_popup_height = 800 ∧
    handleResize (some cexConfigC6) 1 [] = (500, 600) ∧
    ¬ handleResize (some cexConfigC6) 1 []
        = (cexConfigC6.popup_width, cexConfigC6.max_popup_height) := by
  decide

/-- The resize effect as implemented: with a loaded config whose `popup_width`
is non-zero (any validated config), the popup is resized to `(popup_width, 600)`
whenever the history is non-empty or a response is streaming, and to
`(popup_width, 200)` otherwise; `max_popup_height` is not consulted. -/
theorem popup_resize_spec (c : AppConfig) (n : Nat) (cr : Str)
    (hw : ¬ c.popup_width = 0) :
    (0 < n ∨ ¬ cr = [] → handleResize (some c) n cr = (c.popup_width, 600)) ∧
    (n = 0 → cr = [] → handleResize (some c) n cr = (c.popup_width, 200)) := by
  constructor
  · intro h
    simp [handleResize, popupWidthOf, hw, h, EXPANDED_HEIGHT]
  · rintro rfl rfl
    simp [handleResize, popupWidthOf, hw, COMPACT_HEIGHT]

/-- Witness for the amended C6 at a concrete config and state. -/
theorem popup_resize_spec_witness :
    handleResize (some cexConfigC6) 2 [] = (500, 600) ∧
    handleResize (some cexConfigC6) 0 [] = (500, 200) := by
  have h := popup_resize_spec cexConfigC6 2 [] (by decide)
  have h0 := popup_resize_spec cexConfigC6 0 [] (by decide)
  exact ⟨h.1 (Or.inl (by decide)), h0.2 rfl rfl⟩

/-! ### Global ESC handler (PopupWindow.tsx lines 256–274) -/

/-- The effect performed by the popup's global `keydown` handler. -/
inductive EscEffect where
  | closeSuggestions
  | closeDropdown
  | hidePopup
  | noEffect
deriving DecidableEq, Repr

/-- `handleGlobalKeyDown`: on Escape, close the suggestions menu first, else the
model dropdown, else hide the popup window. -/
def handleGlobalKeyDown (key : Str) (showSuggestions isDropdownOpen : Bool) :
    EscEffect :=
  if key = str "Escape" then
    if showSuggestions then EscEffect.closeSuggestions
    else if isDropdownOpen then EscEffect.closeDropdown
    else EscEffect.hidePopup
  else EscEffect.noEffect

/-- Counterexample to C7: an ESC press while the template-suggestions menu is
open closes the menu and does not invoke `hide_popup_window`. -/
theorem popup_esc_counterexample :
    handleGlobalKeyDown (str "Escape") true false = EscEffect.closeSuggestions ∧
    ¬ handleGlobalKeyDown (str "Escape") true false = EscEffect.hidePopup := by
  decide

/-- C7 as amended.  An ESC press hides the popup exactly when neither the
suggestions menu nor the model dropdown is open; otherwise it closes the open
overlay (suggestions first, then the dropdown). -/
theorem popup_esc_hides (showSuggestions isDropdownOpen : Bool)
    (hs : showSuggestions = false) (hd : isDropdownOpen = false) :
    handleGlobalKeyDown (str "Escape") showSuggestions isDropdownOpen
      = EscEffect.hidePopup := by
  subst hs hd
  decide

/-- Witness for the amended C7. -/
theorem popup_esc_hides_witness :
    handleGlobalKeyDown (str "Escape") false false = EscEffect.hidePopup :=
  popup_esc_hides false false rfl rfl

/-! ### Slash-command routing (PopupWindow.tsx lines 318–353) -/

/-- The command name the code extracts after the slash:
`trimmedPrompt.slice(1).split(" ")[0]` — the text up to the first space. -/
def slashCommandName (rest : Str) : Str :=
  rest.takeWhile (fun c => !(c = ' ' : Bool))

/-- The final prompt the code builds for a matched template `t` when the trimmed
input is `'/' :: rest`: the template prompt, joined to the trimmed remainder by
a blank line when that remainder is non-empty. -/
def slashFinalPrompt (t : QuestionTemplate) (rest : Str) : Str :=
  let additionalText := jsTrim (rest.drop (slashCommandName rest).length)
  if additionalText = [] then t.prompt
  else t.prompt ++ str "\n\n" ++ additionalText

/-- Modelled from the spec wording of C10 for comparison: the first
whitespace-delimited word of a string. -/
def firstWhitespaceWord (s : Str) : Str :=
  s.takeWhile (fun c => !(isJsSpace c))

/-- Template and config for the C10 counterexample. -/
def cexTemplateFix : QuestionTemplate :=
  QuestionTemplate.mk (str "t1") (str "fix") (str "Fix this text:")
    TemplateAction.copy none none

/-- Popup state for the C10 counterexample: the input is `/fix<TAB>this`. -/
def cexStateC10 : PopupState :=
  PopupState.mk
    (AppConfig.mk [cexModel] [cexTemplateFix] (HotkeyConfig.mk (str "Alt+S") none)
      0 500 600)
    (str "/fix\tthis") [] []

/-- Counterexample to C10: the first whitespace-delimited word after the slash is
`fix`, which matches a configured template case-insensitively, yet the code —
which splits on the space character only — looks up `fix<TAB>this`, starts no
request and reports the template as not found. -/
theorem slash_command_counterexample :
    firstWhitespaceWord ((jsTrim cexStateC10.customPrompt).drop 1) = str "fix" ∧
    (cexStateC10.config.templates.find?
        (fun u => jsLower u.name == jsLower (str "fix"))).isSome = true ∧
    (handleSend cexStateC10 (SendInput.mk none none none) [] (Except.ok ())).started
      = false ∧
    (handleSend cexStateC10 (SendInput.mk none none none) [] (Except.ok ())).errorMsg
      = some (templateNotFound (str "fix\tthis")) := by
  decide

lemma routeSend_slash_some (cfg : AppConfig) (input : Str)
    (ta : Option TemplateAction) (rest : Str) (t : QuestionTemplate)
    (hsl : jsTrim input = '/' :: rest)
    (ht : cfg.templates.find?
        (fun u => jsLower u.name == jsLower (slashCommandName rest)) = some t) :
    routeSend cfg input none ta
      = RouteResult.proceed (slashFinalPrompt t rest) t.action := by
  simp only [routeSend]
  rw [hsl]
  simp only [slashCommandName] at ht
  simp [ht, slashCommandName, slashFinalPrompt]

lemma routeSend_slash_none (cfg : AppConfig) (input : Str)
    (ta : Option TemplateAction) (rest : Str)
    (hsl : jsTrim input = '/' :: rest)
    (ht : cfg.templates.find?
        (fun u => jsLower u.name == jsLower (slashCommandName rest)) = none) :
    routeSend cfg input none ta
      = RouteResult.invalid (templateNotFound (slashCommandName rest)) := by
  simp only [routeSend]
  rw [hsl]
  simp only [slashCommandName] at ht
  simp [ht, slashCommandName]

/-- C10 as amended.  For a send from the popup input with no prompt override whose
trimmed input starts with `/`: the text up to the first *space* after the slash
is matched case-insensitively against the template names; on a match the request
starts and its final user message is the template prompt, joined to the trimmed
remaining text by a blank line when non-empty, under that template's post-action;
with no match an error message is shown and no request starts. -/
theorem popup_slash_command (ps : PopupState) (inp : SendInput) (ds : List Str)
    (res : Except JsError Unit) (model : ModelConfig) (rest : Str)
    (hm : ps.config.models[ps.config.selected_model_index]? = some model)
    (hk : ¬ model.api_key = [])
    (hov : inp.promptOverride = none)
    (hsl : jsTrim ps.customPrompt = '/' :: rest) :
    (∀ t, ps.config.templates.find?
        (fun u => jsLower u.name == jsLower (slashCommandName rest)) = some t →
      routeSend ps.config ps.customPrompt inp.promptOverride inp.templateAction
          = RouteResult.proceed (slashFinalPrompt t rest) t.action ∧
      (handleSend ps inp ds res).started = true ∧
      (handleSend ps inp ds res).sentConversation.getLast?
          = some (AIMessage.mk AIRole.user (MessageContent.ofString
              (slashFinalPrompt t rest)))) ∧
    (ps.config.templates.find?
        (fun u => jsLower u.name == jsLower (slashCommandName rest)) = none →
      (handleSend ps inp ds res).started = false ∧
      (handleSend ps inp ds res).errorMsg
          = some (templateNotFound (slashCommandName rest))) := by
  constructor
  · intro t ht
    have hroute := routeSend_slash_some ps.config ps.customPrompt inp.templateAction
      rest t hsl ht
    rw [← hov] at hroute
    refine ⟨hroute, ?_, ?_⟩
    · simp [handleSend, hm, if_neg hk, hroute]
    · simp only [handleSend, hm, if_neg hk, hroute, buildConversation]
      rw [List.getLast?_concat]
  · intro ht
    have hroute := routeSend_slash_none ps.config ps.customPrompt inp.templateAction
      rest hsl ht
    rw [← hov] at hroute
    constructor
    · simp [handleSend, hm, if_neg hk, hroute, unchangedOutcome]
    · simp [handleSend, hm, if_neg hk, hroute, unchangedOutcome]

/-- Witness for the amended C10: sending `/fix it now` with template `fix`
configured starts a request whose final user message is
`Fix this text:` + blank line + `it now`. -/
theorem popup_slash_command_witness :
    (handleSend
        (PopupState.mk cexStateC10.config (str "/fix it now") [] [])
        (SendInput.mk none none none) [] (Except.ok ())).started = true ∧
    (handleSend
        (PopupState.mk cexStateC10.config (str "/fix it now") [] [])
        (SendInput.mk none none none) [] (Except.ok ())).sentConversation.getLast?
      = some (AIMessage.mk AIRole.user
          (MessageContent.ofString (str "Fix this text:\n\nit now"))) := by
  have h := (popup_slash_command
    (PopupState.mk cexStateC10.config (str "/fix it now") [] [])
    (SendInput.mk none none none) [] (Except.ok ()) cexModel
    (str "fix it now") (by decide) (by decide) (by decide) (by decide)).1
    cexTemplateFix (by decide)
  refine ⟨h.2.1, ?_⟩
  rw [h.2.2]
  decide

/-! ## Screenshot selector (`src/screenshot-selector.ts`) -/

/-- An effect performed by the selector window's `mouseup` handler. -/
inductive SelectorEffect where
  | captureRegion (x y width height : Int)
  | showPopup
  | closeSelector
  | resetSelection
deriving DecidableEq, Repr

/-- The `mouseup` listener of `src/screenshot-selector.ts` (lines 59–114), as the
ordered list of effects it performs.  Coordinates are CSS pixels (rationals, an
exact model of the browser's numbers); `dpr` is `window.devicePixelRatio`;
`backendOk` tells whether the awaited backend commands succeed (the `catch`
branch alerts and resets the selection). -/
def onMouseUp (isSelecting : Bool) (startX startY currentX currentY dpr : ℚ)
    (backendOk : Bool) : List SelectorEffect :=
  if isSelecting = false then []
  else
    let x := min startX currentX
    let y := min startY currentY
    let width := |currentX - startX|
    let height := |currentY - startY|
    if width < 10 ∨ height < 10 then [SelectorEffect.resetSelection]
    else
      let adjustedX := ⌊x * dpr⌋
      let adjustedY := ⌊y * dpr⌋
      let adjustedWidth := ⌊width * dpr⌋
      let adjustedHeight := ⌊height * dpr⌋
      if backendOk then
        [SelectorEffect.captureRegion adjustedX adjustedY adjustedWidth adjustedHeight,
         SelectorEffect.showPopup, SelectorEffect.closeSelector]
      else
        [SelectorEffect.captureRegion adjustedX adjustedY adjustedWidth adjustedHeight,
         SelectorEffect.resetSelection]

/-- Counterexample to C8: a confirmed 5×5 drag (mouseup ending a selection) is
discarded by the 10-pixel minimum — the selection is reset, no capture command
is invoked, the popup is not shown and the selector does not close. -/
theorem selector_counterexample :
    onMouseUp true 0 0 5 5 2 true = [SelectorEffect.resetSelection] := by
  norm_num [onMouseUp]

/-- C8 as amended.  A confirmed selection measuring at least 10 CSS pixels in each
dimension, with the backend commands succeeding, invokes
`capture_screenshot_region` with the floors of the device-pixel-scaled
top-left corner and absolute extents, then shows the popup and closes the
selector window. -/
theorem selector_confirm_flow (sx sy cx cy dpr : ℚ)
    (hw : 10 ≤ |cx - sx|) (hh : 10 ≤ |cy - sy|) :
    onMouseUp true sx sy cx cy dpr true
      = [SelectorEffect.captureRegion ⌊min sx cx * dpr⌋ ⌊min sy cy * dpr⌋
           ⌊|cx - sx| * dpr⌋ ⌊|cy - sy| * dpr⌋,
         SelectorEffect.showPopup, SelectorEffect.closeSelector] := by
  simp [onMouseUp, not_lt.mpr hw, not_lt.mpr hh]

/-- Witness for the amended C8: a drag from (4, 5) to (25, 31) at device pixel
ratio 3/2 captures the region (6, 7, 31, 39). -/
theorem selector_confirm_flow_witness :
    onMouseUp true 4 5 25 31 (3/2) true
      = [SelectorEffect.captureRegion 6 7 31 39,
         SelectorEffect.showPopup, SelectorEffect.closeSelector] := by
  have h := selector_confirm_flow 4 5 25 31 (3/2) (by norm_num) (by norm_num)
  rw [h]
  norm_num

/-! ## Config store (Rust backend)

The repository ships only the TypeScript callers (`load_config` / `save_config`
in `src/api.ts`); the Rust command implementations are not present.  The store
is therefore modelled from the spec, §4.1 (validation and field-level
migrations), §6.1 (persisted JSON schema) and §4.6 (accelerator grammar). -/

/-- Split a string on `+` (accelerator token separator). -/
def splitPlus (s : Str) : List Str :=
  s.foldr
    (fun c acc =>
      match acc with
      | [] => if c = '+' then [[], []] else [[c]]
      | w :: ws => if c = '+' then [] :: w :: ws else (c :: w) :: ws)
    [[]]

/-- No duplicate entries, by boolean recursion. -/
def nodupB : List Str → Bool
  | [] => true
  | x :: xs => !(xs.contains x) && nodupB xs

/-- Modelled from the spec §4.6: the modifier tokens, lowered
(`Super` aka `Meta`, `Win`; `CommandOrControl`). -/
def modifierTokens : List Str :=
  [str "ctrl", str "alt", str "shift", str "super", str "meta", str "win",
   str "commandorcontrol"]

/-- Modelled from the spec §4.6: the named non-modifier keys, lowered. -/
def namedKeys : List Str :=
  [str "space", str "enter", str "tab", str "esc", str "up", str "down",
   str "left", str "right", str "home", str "end", str "pageup", str "pagedown",
   str "insert", str "delete", str "backspace"]

/-- A single-character key token: a letter, digit or punctuation literal
(any graphic ASCII character). -/
def isKeyChar (c : Char) : Bool :=
  33 ≤ c.toNat && c.toNat ≤ 126

/-- Numeric value of a decimal digit string. -/
def digitsVal (s : Str) : Nat :=
  s.foldl (fun n c => n * 10 + (c.toNat - 48)) 0

/-- A function-key token `F1`–`F24`, lowered. -/
def isFKeyTok (s : Str) : Bool :=
  match s with
  | 'f' :: ds =>
    !(ds = []) && ds.all (fun c => 48 ≤ c.toNat && c.toNat ≤ 57) &&
    1 ≤ digitsVal ds && digitsVal ds ≤ 24
  | _ => false

/-- A non-modifier key token, lowered. -/
def isKeyTok (s : Str) : Bool :=
  (match s with
   | [c] => isKeyChar c
   | _ => false) || namedKeys.contains s || isFKeyTok s

/-- Modelled from the spec §4.6: whether an accelerator string parses — a
case-insensitive, `+`-separated, whitespace-lenient token list of modifiers
plus exactly one non-modifier key, with duplicates rejected. -/
def parseAccelerator (s : Str) : Bool :=
  let toks := (splitPlus s).map (fun t => jsLower (jsTrim t))
  toks.all (fun t => modifierTokens.contains t || isKeyTok t) &&
  toks.countP (fun t => !(modifierTokens.contains t)) == 1 &&
  nodupB toks

/-- Modelled from the spec §4.1: the validation `save` enforces —
`selected_model_index` in range, every hotkey string parses, template names
non-empty and unique case-insensitively, popup dimensions in [300, 1200]. -/
def validateConfig (c : AppConfig) : Bool :=
  (c.selected_model_index < c.models.length : Bool) &&
  parseAccelerator c.hotkeys.popup_hotkey &&
  (match c.hotkeys.screenshot_hotkey with
   | some hk => parseAccelerator hk
   | none => true) &&
  c.templates.all (fun t =>
    !(t.name = []) &&
    (match t.hotkey with
     | some hk => parseAccelerator hk
     | none => true)) &&
  nodupB (c.templates.map (fun t => jsLower t.name)) &&
  (300 ≤ c.popup_width : Bool) && (c.popup_width ≤ 1200 : Bool) &&
  (300 ≤ c.max_popup_height : Bool) && (c.max_popup_height ≤ 1200 : Bool)

/-- A template as persisted in `config.json` (§6.1): fields introduced by later
schema versions are optional. -/
structure PersistedTemplate where
  id : Str
  name : Str
  prompt : Str
  action : Option TemplateAction
  hotkey : Option Str
  background_mode : Option Bool
deriving DecidableEq, Repr

/-- The persisted configuration document (§6.1): optional fields have the
documented defaults injected on load. -/
structure PersistedConfig where
  models : List ModelConfig
  templates : List PersistedTemplate
  hotkeys : HotkeyConfig
  selected_model_index : Nat
  popup_width : Option Nat
  max_popup_height : Option Nat
deriving DecidableEq, Repr

/-- Serialize a full in-memory template: every optional field is present. -/
def toPersistedTemplate (t : QuestionTemplate) : PersistedTemplate :=
  PersistedTemplate.mk t.id t.name t.prompt (some t.action) t.hotkey t.background_mode

/-- Serialize a full in-memory configuration: every optional field is present. -/
def toPersisted (c : AppConfig) : PersistedConfig :=
  PersistedConfig.mk c.models (c.templates.map toPersistedTemplate) c.hotkeys
    c.selected_model_index (some c.popup_width) (some c.max_popup_height)

/-- Modelled from the spec §4.1: field-level migration of one template —
inject `action = none` and `background_mode = false` when missing. -/
def migrateTemplate (t : PersistedTemplate) : QuestionTemplate :=
  QuestionTemplate.mk t.id t.name t.prompt (t.action.getD TemplateAction.noAction)
    t.hotkey (some (t.background_mode.getD false))

/-- Modelled from the spec §4.1: field-level migration of the document —
inject `popup_width = 500` and `max_popup_height = 600` when missing;
`screenshot_hotkey` stays absent. -/
def migrateConfig (p : PersistedConfig) : AppConfig :=
  AppConfig.mk p.models (p.templates.map migrateTemplate) p.hotkeys
    p.selected_model_index (p.popup_width.getD 500) (p.max_popup_height.getD 600)

/-- The error kind returned by a rejected save. -/
inductive ConfigError where
  | invalidConfig
deriving DecidableEq, Repr

/-- Modelled from the spec §4.1: `save_config` validates and then persists the
full document; an invalid configuration is rejected without mutating the store. -/
def save_config (c : AppConfig) : Except ConfigError PersistedConfig :=
  if validateConfig c = true then Except.ok (toPersisted c)
  else Except.error ConfigError.invalidConfig

/-- Modelled from the spec §4.1: `load_config` reads the persisted document and
applies the field-level migrations. -/
def load_config (p : PersistedConfig) : AppConfig :=
  migrateConfig p

/-- Semantic equality of templates modulo the documented migrations: all fields
equal, with a missing `background_mode` read as its injected default `false`. -/
def templateSemEq (a b : QuestionTemplate) : Bool :=
  a.id == b.id && a.name == b.name && a.prompt == b.prompt &&
  a.action == b.action && a.hotkey == b.hotkey &&
  a.background_mode.getD false == b.background_mode.getD false

/-- Semantic equality of configurations modulo the documented migrations. -/
def configSemEq (a b : AppConfig) : Bool :=
  a.models == b.models && a.hotkeys == b.hotkeys &&
  a.selected_model_index == b.selected_model_index &&
  a.popup_width == b.popup_width && a.max_popup_height == b.max_popup_height &&
  a.templates.length == b.templates.length &&
  (a.templates.zip b.templates).all (fun pq => templateSemEq pq.1 pq.2)

lemma zip_migrate_all (ts : List QuestionTemplate) :
    ((ts.zip ((ts.map toPersistedTemplate).map migrateTemplate)).all
      (fun pq => templateSemEq pq.1 pq.2)) = true := by
  induction ts with
  | nil => rfl
  | cons t ts ih =>
    simp only [List.map_cons, List.zip_cons_cons, List.all_cons, ih, Bool.and_true]
    cases t
    simp [templateSemEq, migrateTemplate, toPersistedTemplate]

lemma semEq_migrate_toPersisted (c : AppConfig) :
    configSemEq c (migrateConfig (toPersisted c)) = true := by
  cases c
  unfold configSemEq migrateConfig toPersisted
  simp only [List.length_map, zip_migrate_all, Option.getD_some, beq_self_eq_true,
    Bool.and_self, Bool.true_and, Bool.and_true]

/-- C9.  Any configuration accepted by `save_config` is returned by a subsequent
`load_config` semantically unchanged, modulo the documented field-level
migrations (injected defaults for fields absent from the stored document). -/
theorem config_roundtrip (c : AppConfig) (p : PersistedConfig)
    (h : save_config c = Except.ok p) :
    configSemEq c (load_config p) = true := by
  by_cases hv : validateConfig c = true
  · rw [save_config, if_pos hv] at h
    cases h
    exact semEq_migrate_toPersisted c
  · rw [save_config, if_neg hv] at h
    cases h

/-- The two-model, one-template configuration of spec §8, scenario 1. -/
def specScenarioConfig : AppConfig :=
  AppConfig.mk
    [ModelConfig.mk (str "OpenAI") (str "https://api.openai.com/v1")
       (str "sk-a") (str "gpt-4o") (some false),
     ModelConfig.mk (str "Local") (str "http://localhost:8080/v1")
       (str "sk-b") (str "llama") (some false)]
    [QuestionTemplate.mk (str "t1") (str "Explain") (str "Explain:")
       TemplateAction.copy (some (str "Alt+E")) (some false)]
    (HotkeyConfig.mk (str "Alt+S") none) 1 500 600

/-- Witness for C9: the configuration of spec §8, scenario 1 validates, saves,
and round-trips through `load_config`. -/
theorem config_roundtrip_witness :
    configSemEq specScenarioConfig (load_config (toPersisted specScenarioConfig))
      = true :=
  config_roundtrip specScenarioConfig _
    (by rw [save_config,
          if_pos (show validateConfig specScenarioConfig = true by decide)])
